import Mathlib

set_option maxRecDepth 40000

/-!
Shallow embedding of the SpiralSculpture-AtomS3 firmware core
(src/src/main.cpp and src/src/auto_generator.cpp).

Conventions of the embedding:
* C++ `int` values are modelled as `Int` (all reachable values are far from
  32-bit overflow); `unsigned long` durations are modelled as `Nat` since the
  source only ever stores non-negative values in them.
* C++ `float` quantities (the LED step interval) are modelled as exact
  rationals `ℚ`; no claim depends on float rounding of these quantities.
* Integer division in the source always has non-negative operands at the
  modelled call sites, where C truncating division and Lean division agree.
* External hardware calls (PWM writes, `FastLED.show`) are not state we track,
  except the FastLED master brightness register, kept as `fastledBrightness`.
* `millis()`-based due-time checks only schedule steps; the embedding models
  the effect of one *due* step (`rampStep`, `cometFrame`), which is what the
  claims quantify over.
-/

/-- Constants from src/src/main.cpp (lines 64-82). -/
def PHYSICAL_MAX_SPEED : Int := 900

def PHYSICAL_MIN_SPEED : Int := 500

def LOGICAL_MAX_SPEED : Int := 1000

def LOGICAL_SPEED_INCREMENT : Int := 50

def LOGICAL_INITIAL_SPEED : Int := 600

def LOGICAL_REVERSE_INTERMEDIATE_SPEED : Int := 200

def RAMP_STEP : Int := 5

/-- DEFAULT_RAMP_DURATION_MS comes from shared.h (not under src/src); the
earlier in-repo variants (src/unnamed/part_000..002) all define it as 4000. -/
def DEFAULT_RAMP_DURATION_MS : Nat := 4000

def NUM_LEDS : Int := 198

def VIRTUAL_GAP : Int := 25

def LOGICAL_NUM_LEDS : Int := NUM_LEDS + VIRTUAL_GAP

def INITIAL_GLOBAL_BRIGHTNESS : Int := 76

/-- Arduino `constrain(x, lo, hi)`. -/
def constrain (x lo hi : Int) : Int := min hi (max lo x)

/-- Motor ramp state machine states (main.cpp lines 93-97). -/
inductive MotorState where
  | idle
  | rampingDown
  | rampingUp
deriving DecidableEq, Repr

/-- LED effect selector (main.cpp lines 142-149). -/
inductive LedEffect where
  | comet
  | blink
  | noise
  | fire
  | twinkle
  | marquee
deriving DecidableEq, Repr

/-- Auto-mode selector (main.cpp lines 195-199). -/
inductive AutoModeType where
  | amNone
  | amNormal
  | amSteadyRotate
deriving DecidableEq, Repr

/-- The mutable global state of main.cpp that the claims are about.
Fields not modelled (purely visual buffers and parameters no claim touches):
the pixel array contents, fire heat buffer, noise palette and coordinates,
blink parameters, ramp diagnostics (`__rampStartSpeed`, `__rampStartTime`),
and script command list/index/timing other than the running flag and mode. -/
structure SysState where
  motorState : MotorState
  currentLogicalSpeed : Int
  speedSetting : Int
  targetLogicalSpeed : Int
  rampStepDelay : Nat
  reverseAfterRampDown : Bool
  pendingOff : Bool
  isDirectionClockwise : Bool
  isMotorRunning : Bool
  currentRampDuration : Nat
  ledPosition : Int
  isLedReversed : Bool
  globalMasterBrightness : Int
  lastDisplayBrightnessPercent : Int
  fastledBrightness : Int
  bgHue : Int
  bgBrightness : Int
  cometHue : Int
  cometTailLength : Int
  cometCount : Int
  ledIntervalMs : ℚ
  isManualLedInterval : Bool
  manualLedIntervalMs : ℚ
  manualSpeedReference : Int
  activeLedEffect : LedEffect
  isHueSineActive : Bool
  hueSineLow : Int
  hueSineHigh : Int
  isRainbowActive : Bool
  isPulseSineActive : Bool
  pulseSineLow : Int
  pulseSineHigh : Int
  isScriptRunning : Bool
  autoModeType : AutoModeType
  marqueeHue : Int
  marqueeLitWidth : Int
  marqueeDarkWidth : Int
  twinkleHue : Int
  twinkleDensity : Int

/-- `calculate_rev_time_ms` (main.cpp lines 312-340): piecewise-linear
interpolation over the three-entry table [(400,5200),(700,2096),(1000,1250)],
with linear extrapolation past both ends, floored at 500 and truncated to a
long.  The float arithmetic is modelled exactly over ℚ; the loop over the
table is unrolled for the concrete 3-entry `g_speedSyncTable`. -/
def calculate_rev_time_ms (speed : Int) : Int :=
  let t : ℚ :=
    if speed ≤ 400 then
      5200 + ((2096 - 5200 : ℚ) / (700 - 400)) * ((speed : ℚ) - 400)
    else if speed ≥ 1000 then
      1250 + ((1250 - 2096 : ℚ) / (1000 - 700)) * ((speed : ℚ) - 1000)
    else if speed ≤ 700 then
      5200 + (((speed : ℚ) - 400) / (700 - 400)) * (2096 - 5200)
    else
      2096 + (((speed : ℚ) - 700) / (1000 - 700)) * (1250 - 2096)
  ⌊max 500 t⌋

/-- `applySpeedSyncLookup` (main.cpp lines 346-356). -/
def applySpeedSyncLookup (speed : Int) (st : SysState) : SysState :=
  if speed > 0 ∧ st.isManualLedInterval then
    { st with ledIntervalMs :=
        st.manualLedIntervalMs * ((st.manualSpeedReference : ℚ) / (speed : ℚ)) }
  else
    { st with ledIntervalMs := (calculate_rev_time_ms speed : ℚ) / (LOGICAL_NUM_LEDS : ℚ) }

/-- FastLED `scale8(i, scale)` with FASTLED_SCALE8_FIXED (FastLED >= 3.1,
and the source requires FastLED 3.6+): (i * (1 + scale)) >> 8.
Modelled from the spec: FastLED is an external library ("the 8-bit scaling
used"; spec: effective output brightness = display x global). -/
def scale8 (i scaleVal : Int) : Int := (i * (1 + scaleVal)) / 256

/-- `applyBrightness` (main.cpp lines 363-366): the FastLED master
brightness register receives global scaled by the display value. -/
def applyBrightness (displayVal : Int) (st : SysState) : SysState :=
  { st with fastledBrightness := scale8 st.globalMasterBrightness displayVal }

/-- `setFinalBrightnessFromDisplayPercent` (main.cpp lines 373-379). -/
def setFinalBrightnessFromDisplayPercent (percent : Int) (st : SysState) : SysState :=
  let lastPct := constrain percent 0 100
  let displayVal := (lastPct * 255) / 100
  applyBrightness displayVal { st with lastDisplayBrightnessPercent := lastPct }

/-- `mapSpeedToDuty` (main.cpp lines 404-408): Arduino map(s,1,1000,500,900). -/
def mapSpeedToDuty (logicalSpeed : Int) : Int :=
  if logicalSpeed ≤ 0 then 0
  else (logicalSpeed - 1) * (PHYSICAL_MAX_SPEED - PHYSICAL_MIN_SPEED) /
    (LOGICAL_MAX_SPEED - 1) + PHYSICAL_MIN_SPEED

/-- `updateRampTiming` (main.cpp lines 413-417). -/
def updateRampTiming (st : SysState) : SysState :=
  let delta : Nat := (st.targetLogicalSpeed - st.currentLogicalSpeed).natAbs
  let numSteps : Nat := if delta > 0 then delta / RAMP_STEP.natAbs else 1
  { st with rampStepDelay :=
      if numSteps > 0 then st.currentRampDuration / numSteps else 1 }

/-- `triggerStart` (main.cpp lines 420-432). -/
def triggerStart (st : SysState) : SysState :=
  if st.isMotorRunning then st
  else
    let st := { st with ledPosition := 0, targetLogicalSpeed := st.speedSetting }
    let st := applySpeedSyncLookup st.targetLogicalSpeed st
    let st := updateRampTiming st
    { st with motorState := .rampingUp, isMotorRunning := true }

/-- `triggerStop` (main.cpp lines 479-487). -/
def triggerStop (st : SysState) : SysState :=
  let st := { st with targetLogicalSpeed := 0 }
  let st := updateRampTiming st
  { st with motorState := .rampingDown, reverseAfterRampDown := false }

/-- `triggerReverse` (main.cpp lines 434-449). -/
def triggerReverse (st : SysState) : SysState :=
  if st.isMotorRunning then
    let st := { st with reverseAfterRampDown := true,
                        targetLogicalSpeed := LOGICAL_REVERSE_INTERMEDIATE_SPEED }
    let st := applySpeedSyncLookup st.targetLogicalSpeed st
    let st := updateRampTiming st
    { st with motorState := .rampingDown }
  else
    triggerStart { st with isDirectionClockwise := ¬st.isDirectionClockwise }

/-- `triggerSpeedUp` (main.cpp lines 451-463). -/
def triggerSpeedUp (st : SysState) : SysState :=
  let st := { st with speedSetting := min LOGICAL_MAX_SPEED (st.speedSetting + LOGICAL_SPEED_INCREMENT) }
  if st.isMotorRunning then
    let st := { st with targetLogicalSpeed := st.speedSetting }
    let st := applySpeedSyncLookup st.targetLogicalSpeed st
    let st := updateRampTiming st
    { st with motorState := .rampingUp }
  else st

/-- `triggerSpeedDown` (main.cpp lines 465-477). -/
def triggerSpeedDown (st : SysState) : SysState :=
  let st := { st with speedSetting := max LOGICAL_INITIAL_SPEED (st.speedSetting - LOGICAL_SPEED_INCREMENT) }
  if st.isMotorRunning then
    let st := { st with targetLogicalSpeed := st.speedSetting }
    let st := applySpeedSyncLookup st.targetLogicalSpeed st
    let st := updateRampTiming st
    { st with motorState := .rampingDown }
  else st

/-- `triggerSetSpeed` (main.cpp lines 489-515). -/
def triggerSetSpeed (newSpeed : Int) (st : SysState) : SysState :=
  let st := { st with speedSetting := constrain newSpeed 0 LOGICAL_MAX_SPEED }
  if st.speedSetting = 0 then triggerStop st
  else
    let st := { st with targetLogicalSpeed := st.speedSetting }
    let st := applySpeedSyncLookup st.targetLogicalSpeed st
    let st := updateRampTiming st
    let st := if ¬st.isMotorRunning then { st with ledPosition := 0, isMotorRunning := true } else st
    if st.targetLogicalSpeed > st.currentLogicalSpeed then
      { st with motorState := .rampingUp }
    else if st.targetLogicalSpeed < st.currentLogicalSpeed then
      { st with motorState := .rampingDown }
    else st

/-- One due step of the non-blocking motor state machine in `loop`
(main.cpp lines 1219-1266): executed whenever the motor is not idle and
`rampStepDelay` has elapsed.  `setMotorDuty` is an external PWM write. -/
def rampStep (st : SysState) : SysState :=
  if st.motorState = .idle then st
  else
    let cur :=
      if st.motorState = .rampingUp then
        min st.targetLogicalSpeed (st.currentLogicalSpeed + RAMP_STEP)
      else
        max st.targetLogicalSpeed (st.currentLogicalSpeed - RAMP_STEP)
    let st := applySpeedSyncLookup cur { st with currentLogicalSpeed := cur }
    if st.currentLogicalSpeed = st.targetLogicalSpeed then
      if st.reverseAfterRampDown then
        let st := { st with isDirectionClockwise := ¬st.isDirectionClockwise,
                            targetLogicalSpeed := st.speedSetting }
        let st := applySpeedSyncLookup st.targetLogicalSpeed st
        let st := updateRampTiming st
        { st with motorState := .rampingUp, reverseAfterRampDown := false,
                  isMotorRunning := true }
      else
        let st := { st with motorState := .idle }
        if st.currentLogicalSpeed = 0 then
          { st with isMotorRunning := false, speedSetting := LOGICAL_INITIAL_SPEED }
        else st
    else st

/-- The global state right after `setup()` (main.cpp lines 975-1038) has
initialized every field but before the final `triggerStart()` call: all the
static initializers (lines 98-201), `setFinalBrightnessFromDisplayPercent(100)`
(so the FastLED register holds scale8(76,255) = 76), motor stopped. -/
def bootState : SysState where
  motorState := .idle
  currentLogicalSpeed := 0
  speedSetting := LOGICAL_INITIAL_SPEED
  targetLogicalSpeed := 0
  rampStepDelay := 0
  reverseAfterRampDown := false
  pendingOff := false
  isDirectionClockwise := true
  isMotorRunning := false
  currentRampDuration := DEFAULT_RAMP_DURATION_MS
  ledPosition := 0
  isLedReversed := false
  globalMasterBrightness := INITIAL_GLOBAL_BRIGHTNESS
  lastDisplayBrightnessPercent := 100
  fastledBrightness := 76
  bgHue := 160
  bgBrightness := 76
  cometHue := 0
  cometTailLength := 10
  cometCount := 3
  ledIntervalMs := 20
  isManualLedInterval := false
  manualLedIntervalMs := 0
  manualSpeedReference := 0
  activeLedEffect := .comet
  isHueSineActive := false
  hueSineLow := 0
  hueSineHigh := 255
  isRainbowActive := false
  isPulseSineActive := false
  pulseSineLow := 0
  pulseSineHigh := 255
  isScriptRunning := false
  autoModeType := .amNone
  marqueeHue := 0
  marqueeLitWidth := 4
  marqueeDarkWidth := 8
  twinkleHue := 0
  twinkleDensity := 50

/-- Splitting a character list at a separator character; structural-recursion
equivalent of the `find`/`substr` scans the source does (and of
`String.splitOn` with a one-character separator). -/
def splitChar (c : Char) : List Char → List Char → List (List Char)
  | [], acc => [acc.reverse]
  | x :: xs, acc =>
    if x = c then acc.reverse :: splitChar c xs [] else splitChar c xs (x :: acc)

/-- Rejoin pieces with the separator (inverse of `splitChar` for the pieces
after the first, matching `substr(colon_pos + 1)` in the source). -/
def joinWith (c : Char) : List (List Char) → List Char
  | [] => []
  | [x] => x
  | x :: y :: xs => x ++ c :: joinWith c (y :: xs)

/-- String prefix test, as `rfind(prefix, 0) == 0` in the source. -/
def listStartsWith : List Char → List Char → Bool
  | _, [] => true
  | [], _ :: _ => false
  | a :: as, b :: bs => a = b && listStartsWith as bs

def strStartsWith (s p : String) : Bool := listStartsWith s.data p.data

/-- C `atoi` on the argument substrings the source feeds it: parses an
optional sign followed by leading decimal digits, stopping at the first
non-digit (so stray text after a number, or a following comma, is ignored),
and returns 0 when no digits are present.  (The source never passes strings
with leading whitespace.) -/
def atoiDigits : List Char → Nat → Nat
  | [], acc => acc
  | ch :: rest, acc =>
    if ch.isDigit then atoiDigits rest (acc * 10 + (ch.toNat - 48)) else acc

def atoi : List Char → Int
  | '-' :: rest => -(atoiDigits rest 0 : Int)
  | '+' :: rest => (atoiDigits rest 0 : Int)
  | l => (atoiDigits l 0 : Int)

/-- The typed form of the textual commands `processCommand`
(main.cpp lines 524-852) handles.  `nopCmd` stands for every input on which
the source only logs (empty input, malformed parameter lists, unknown names);
`ledTailsBad` is a `led_tails` whose parameter list lacks the two commas
(the source has then already switched the active effect to Comet). -/
inductive Cmd where
  | motorSpeed (v : Int)
  | motorRamp (v : Int)
  | ledGlobalBrightness (v : Int)
  | ledDisplayBrightness (v : Int)
  | ledBackground (h b : Int)
  | ledTails (h l c : Int)
  | ledTailsBad
  | ledCycleTime (v : Int)
  | systemOff
  | runScriptFunky
  | autoMode (debug : Bool) (v : Int)
  | autoSteadyRotate (debug : Bool) (v : Int)
  | holdCmd (v : Int)
  | ledBlink (h b u d c : Int)
  | ledSineHue (lo hi : Int)
  | ledSinePulse (lo hi : Int)
  | ledEffectFire
  | ledEffectTwinkle (h d : Int)
  | ledEffectMarquee (h lw dw : Int)
  | ledEffectNoise
  | ledEffectNone
  | ledRainbow
  | ledReset
  | motorStart
  | motorStop
  | systemReset
  | motorReverse
  | motorSpeedUp
  | motorSpeedDown
  | ledCycleUp
  | ledCycleDown
  | ledReverse
  | commentCmd
  | nopCmd
deriving DecidableEq, Repr

/-- The parsing stage of `processCommand` (main.cpp lines 524-852): find the
first ':', split name from arguments, extract numbers with `atoi` and locate
commas exactly as the `find(',')`/`substr` code does (modelled with
`splitOn`, which agrees with it on these grammars because `atoi` stops at
the first non-digit). -/
def parseCommand (value : String) : Cmd :=
  match value.data with
  | [] => .nopCmd
  | '[' :: _ => .commentCmd
  | cs =>
    match splitChar ':' cs [] with
    | cmd :: rest1 :: restOther =>
      let params := joinWith ':' (rest1 :: restOther)
      let v := atoi params
      if cmd = "motor_speed".data then .motorSpeed v
      else if cmd = "motor_ramp".data then .motorRamp v
      else if cmd = "led_global_brightness".data then .ledGlobalBrightness v
      else if cmd = "led_display_brightness".data then .ledDisplayBrightness v
      else if cmd = "led_background".data then
        match splitChar ',' params [] with
        | p1 :: p2 :: _ => .ledBackground (atoi p1) (atoi p2)
        | _ => .nopCmd
      else if cmd = "led_tails".data then
        match splitChar ',' params [] with
        | p1 :: p2 :: p3 :: _ => .ledTails (atoi p1) (atoi p2) (atoi p3)
        | _ => .ledTailsBad
      else if cmd = "led_cycle_time".data then .ledCycleTime v
      else if cmd = "system_off".data then .systemOff
      else if cmd = "run_script".data then
        if params = "funky".data then .runScriptFunky else .nopCmd
      else if cmd = "auto_mode".data then .autoMode false v
      else if cmd = "auto_mode_debug".data then .autoMode true v
      else if cmd = "auto_steady_rotate".data then .autoSteadyRotate false v
      else if cmd = "auto_steady_rotate_debug".data then .autoSteadyRotate true v
      else if cmd = "hold".data then .holdCmd v
      else if cmd = "led_blink".data then
        match splitChar ',' params [] with
        | p1 :: p2 :: p3 :: p4 :: p5 :: _ =>
          .ledBlink (atoi p1) (atoi p2) (atoi p3) (atoi p4) (atoi p5)
        | [p1, p2, p3, p4] => .ledBlink (atoi p1) (atoi p2) (atoi p3) (atoi p4) 0
        | _ => .nopCmd
      else if cmd = "led_sine_hue".data then
        match splitChar ',' params [] with
        | p1 :: p2 :: _ => .ledSineHue (atoi p1) (atoi p2)
        | _ => .nopCmd
      else if cmd = "led_sine_pulse".data then
        match splitChar ',' params [] with
        | p1 :: p2 :: _ => .ledSinePulse (atoi p1) (atoi p2)
        | _ => .nopCmd
      else if cmd = "led_effect".data then
        match splitChar ',' params [] with
        | effectName :: effArgs =>
          if effectName = "fire".data then .ledEffectFire
          else if effectName = "twinkle".data then
            match effArgs with
            | p1 :: p2 :: _ => .ledEffectTwinkle (atoi p1) (atoi p2)
            | [p1] => .ledEffectTwinkle (atoi p1) 50
            | [] => .ledEffectTwinkle 0 50
          else if effectName = "marquee".data then
            match effArgs with
            | p1 :: p2 :: p3 :: _ => .ledEffectMarquee (atoi p1) (atoi p2) (atoi p3)
            | _ => .nopCmd
          else if effectName = "noise".data then
            match effArgs with
            | _ :: _ :: _ :: _ => .ledEffectNoise
            | _ => .nopCmd
          else if effectName = "none".data then .ledEffectNone
          else .nopCmd
        | [] => .nopCmd
      else .nopCmd
    | _ =>
      if cs = "system_off".data then .systemOff
      else if cs = "led_rainbow".data then .ledRainbow
      else if cs = "led_reset".data then .ledReset
      else if cs = "motor_start".data then .motorStart
      else if cs = "motor_stop".data then .motorStop
      else if cs = "system_reset".data then .systemReset
      else if cs = "motor_reverse".data then .motorReverse
      else if cs = "motor_speed_up".data then .motorSpeedUp
      else if cs = "motor_speed_down".data then .motorSpeedDown
      else if cs = "led_cycle_up".data then .ledCycleUp
      else if cs = "led_cycle_down".data then .ledCycleDown
      else if cs = "led_reverse".data then .ledReverse
      else .nopCmd

/-- The `led_rainbow` handler (main.cpp lines 788-792), shared because
`system_reset` ends by calling `processCommand("led_rainbow")`. -/
def ledRainbowEffect (st : SysState) : SysState :=
  let st := { st with isRainbowActive := true, isHueSineActive := false }
  if st.cometCount = 0 then { st with cometCount := 1 } else st

/-- The `led_reset` handler (main.cpp lines 793-803). -/
def ledResetEffect (st : SysState) : SysState :=
  let st := { st with isHueSineActive := false, isRainbowActive := false,
                      isPulseSineActive := false, activeLedEffect := .comet,
                      cometCount := 0, isLedReversed := false,
                      isManualLedInterval := false }
  setFinalBrightnessFromDisplayPercent 100 st

/-- The state-mutation stage of `processCommand` (main.cpp lines 524-852),
branch for branch.  Pixel-buffer writes (`FastLED.clear`) and fields outside
the modelled state (blink timing parameters, noise palette/coordinates) are
not tracked; the auto-mode branches run the script generator, whose command
list is not stored in the modelled state (its first command `led_reset` /
`motor_speed` makes it non-empty for every constrained duration, so the
running flags are set exactly as in the source). -/
def applyCommand (c : Cmd) (st : SysState) : SysState :=
  match c with
  | .motorSpeed v => triggerSetSpeed (constrain v 0 LOGICAL_MAX_SPEED) st
  | .motorRamp v => { st with currentRampDuration := (constrain v 0 10000).toNat }
  | .ledGlobalBrightness v =>
    let pct := constrain v 0 100
    let st := { st with globalMasterBrightness := (pct * 255) / 100 }
    if ¬st.isPulseSineActive then
      setFinalBrightnessFromDisplayPercent st.lastDisplayBrightnessPercent st
    else st
  | .ledDisplayBrightness v =>
    let st := { st with isPulseSineActive := false }
    setFinalBrightnessFromDisplayPercent (constrain v 0 100) st
  | .ledBackground h b =>
    { st with bgHue := constrain h 0 255,
              bgBrightness := (constrain b 0 50 * 255) / 100 }
  | .ledTails h l c =>
    let st := { st with activeLedEffect := .comet }
    if c = 0 ∨ 5 * (c * l) ≤ 4 * LOGICAL_NUM_LEDS then
      -- the source compares c*l <= 223*0.8 in double arithmetic; for the
      -- integer left side this is exactly c*l <= 178.4, i.e. 5*(c*l) <= 892
      { st with cometHue := constrain h 0 255,
                cometTailLength := max 1 l,
                cometCount := max 0 c }
    else st
  | .ledTailsBad => { st with activeLedEffect := .comet }
  | .ledCycleTime v =>
    if v > 0 then
      let st := { st with isManualLedInterval := true,
                          manualLedIntervalMs := (v : ℚ) / (LOGICAL_NUM_LEDS : ℚ),
                          manualSpeedReference :=
                            if st.currentLogicalSpeed > 0 then st.currentLogicalSpeed
                            else st.speedSetting }
      { st with ledIntervalMs := st.manualLedIntervalMs }
    else st
  | .systemOff => { st with pendingOff := true }
  | .runScriptFunky =>
    { st with isScriptRunning := true, autoModeType := .amNone }
  | .autoMode debug _ =>
    let st := { st with isScriptRunning := false, autoModeType := .amNone }
    if ¬debug then { st with isScriptRunning := true, autoModeType := .amNormal }
    else st
  | .autoSteadyRotate debug _ =>
    let st := { st with isScriptRunning := false, autoModeType := .amNone }
    if ¬debug then { st with isScriptRunning := true, autoModeType := .amSteadyRotate }
    else st
  | .holdCmd _ => st
  | .ledBlink _ _ _ _ _ =>
    -- blink hue/brightness/timing go to unmodelled fields; the modelled
    -- consequence is the effect switch (main.cpp line 687)
    { st with activeLedEffect := .blink }
  | .ledSineHue lo hi =>
    let st := { st with hueSineLow := lo % 256, hueSineHigh := hi % 256,
                        isHueSineActive := true, isRainbowActive := false }
    if st.cometCount = 0 then { st with cometCount := 1 } else st
  | .ledSinePulse lo hi =>
    let st := { st with pulseSineLow := (constrain lo 0 100 * 255) / 100,
                        pulseSineHigh := (constrain hi 0 100 * 255) / 100,
                        isPulseSineActive := true }
    if st.bgBrightness = 0 ∧ st.cometCount = 0 then { st with bgBrightness := 76 } else st
  | .ledEffectFire => { st with activeLedEffect := .fire }
  | .ledEffectTwinkle h d =>
    { st with twinkleHue := h % 256, twinkleDensity := constrain d 1 255,
              activeLedEffect := .twinkle }
  | .ledEffectMarquee h lw dw =>
    { st with marqueeHue := h % 256, marqueeLitWidth := max 1 lw,
              marqueeDarkWidth := max 1 dw, activeLedEffect := .marquee }
  | .ledEffectNoise => { st with activeLedEffect := .noise }
  | .ledEffectNone =>
    let st := { st with activeLedEffect := .comet }
    if st.cometCount = 0 then { st with cometCount := 1 } else st
  | .ledRainbow => ledRainbowEffect st
  | .ledReset => ledResetEffect st
  | .motorStart => triggerStart st
  | .motorStop => triggerStop st
  | .systemReset =>
    let st := { st with isHueSineActive := false, isRainbowActive := false,
                        isPulseSineActive := false, autoModeType := .amNone,
                        isLedReversed := false,
                        speedSetting := LOGICAL_INITIAL_SPEED }
    -- globalMasterBrightness is NOT reset (main.cpp line 815)
    let st := setFinalBrightnessFromDisplayPercent 100 st
    let st := { st with bgHue := 160, bgBrightness := 76, cometHue := 0,
                        cometTailLength := 10, cometCount := 3,
                        isManualLedInterval := false, activeLedEffect := .comet,
                        currentRampDuration := DEFAULT_RAMP_DURATION_MS }
    let st := triggerSetSpeed st.speedSetting st
    ledRainbowEffect st
  | .motorReverse => triggerReverse st
  | .motorSpeedUp => triggerSpeedUp st
  | .motorSpeedDown => triggerSpeedDown st
  | .ledCycleUp =>
    -- 0.92f modelled as the exact decimal 92/100
    let st := { st with isManualLedInterval := true,
                        ledIntervalMs := st.ledIntervalMs * (92 / 100 : ℚ) }
    { st with manualLedIntervalMs := st.ledIntervalMs,
              manualSpeedReference :=
                if st.currentLogicalSpeed > 0 then st.currentLogicalSpeed
                else st.speedSetting }
  | .ledCycleDown =>
    let st := { st with isManualLedInterval := true,
                        ledIntervalMs := st.ledIntervalMs * (108 / 100 : ℚ) }
    { st with manualLedIntervalMs := st.ledIntervalMs,
              manualSpeedReference :=
                if st.currentLogicalSpeed > 0 then st.currentLogicalSpeed
                else st.speedSetting }
  | .ledReverse => { st with isLedReversed := ¬st.isLedReversed }
  | .commentCmd => st
  | .nopCmd => st

/-- `processCommand` (main.cpp lines 524-852). -/
def processCommand (value : String) (st : SysState) : SysState :=
  applyCommand (parseCommand value) st

/-- The BLE command handoff in `loop` (main.cpp lines 1046-1070): decides
whether a received command string is processed or ignored, and with what
side effects.  Returns (processed?, new state).  `rfind(prefix, 0) == 0`
in the source is a string prefix test. -/
def bleDispatch (st : SysState) (cmdStr : String) : Bool × SysState :=
  if strStartsWith cmdStr "led_global_brightness" then
    (true, processCommand cmdStr st)
  else if cmdStr = "system_reset" ∨ cmdStr = "system_off" then
    (true, processCommand cmdStr
      { st with isScriptRunning := false, autoModeType := .amNone })
  else if st.isScriptRunning = false then
    (true, processCommand cmdStr st)
  else if st.autoModeType = .amSteadyRotate ∧ strStartsWith cmdStr "motor_speed" then
    (true, processCommand cmdStr st)
  else
    (false, st)

/-- The new comet head position after one due comet frame
(main.cpp lines 1189-1191). -/
def cometAdvance (st : SysState) : Int :=
  let fwd := xor (¬st.isDirectionClockwise) st.isLedReversed
  if fwd then (st.ledPosition + 1) % LOGICAL_NUM_LEDS
  else (st.ledPosition - 1 + LOGICAL_NUM_LEDS) % LOGICAL_NUM_LEDS

/-- The pixel indices written by the comet-head loop of one due comet frame
(main.cpp lines 1193-1196): head j sits at logical position
(pos + j*(LOGICAL_NUM_LEDS / count)) % LOGICAL_NUM_LEDS and is drawn only
when that position is below the physical count (the virtual-gap guard). -/
def cometHeadWrites (pos count : Int) : List Int :=
  (List.range count.toNat).filterMap fun j =>
    if (pos + Int.ofNat j * (LOGICAL_NUM_LEDS / count)) % LOGICAL_NUM_LEDS < NUM_LEDS
    then some ((pos + Int.ofNat j * (LOGICAL_NUM_LEDS / count)) % LOGICAL_NUM_LEDS)
    else none

/-- All pixel indices written by one due comet frame
(main.cpp lines 1171-1199): the fade pass and the background lighten pass
each touch indices 0..NUM_LEDS-1, then the comet heads are drawn at the
guard-filtered logical positions after the position advance. -/
def cometFrameWrites (st : SysState) : List Int :=
  ((List.range NUM_LEDS.toNat).map Int.ofNat) ++
  ((List.range NUM_LEDS.toNat).map Int.ofNat) ++
  cometHeadWrites (cometAdvance st) st.cometCount

/-- Arduino `random(lo, hi)` fed from an abstract pseudo-random stream:
call number i yields lo + (stream i) % (hi - lo), a value in [lo, hi-1].
The stream abstracts the seeded `randomSeed(millis())` generator state. -/
def arand (stream : Nat → Nat) (i lo hi : Nat) : Int :=
  (lo : Int) + ((stream i) % (hi - lo) : Nat)

/-- The COOL_DOWN block of `AutoGenerator::generateScript`
(auto_generator.cpp lines 520-547), emitted when cool_down_duration_ms >
1000, with the generator's random calls numbered in source order.
Command strings are produced exactly as `format_command` does. -/
def cooldownCommands (stream : Nat → Nat) (cdMs : Int) : List String :=
  -- the source binds cooldown_effect = random(100), here stream call 1
  [ "[---------- COOL_DOWN ----------]",
    "led_display_brightness:" ++ toString (arand stream 0 20 41),
    "led_reset" ] ++
  (if (stream 1) % 100 < 40 then
    [ "motor_speed:" ++ toString (arand stream 2 200 301),
      "led_effect:noise," ++ ["cloud", "ocean", "forest"].getD ((stream 3) % 3) "" ++ ",4,50",
      "hold:" ++ toString cdMs ]
   else if (stream 1) % 100 < 70 then
    [ "motor_speed:" ++ toString (arand stream 2 200 301),
      "led_effect:twinkle," ++ toString (arand stream 3 0 256) ++ ",80",
      "hold:" ++ toString cdMs ]
   else
    [ "motor_speed:" ++ toString (arand stream 2 400 501),
      "led_background:" ++ toString (arand stream 3 0 256) ++ "," ++ toString (arand stream 4 5 15),
      "led_tails:" ++ toString (arand stream 5 0 256) ++ "," ++ toString (arand stream 6 20 30) ++ ",1",
      "hold:" ++ toString (cdMs / 2),
      "motor_speed:" ++ toString (arand stream 7 200 301),
      "hold:" ++ toString (cdMs / 2) ])

/-- The cool-down duration computed by `generateScript`
(auto_generator.cpp lines 183-196): 60 s, scaled down (but by no less than
0.5) when the requested total is shorter than one full show of about 3.5
minutes; float scaling modelled over ℚ with the final truncation to long. -/
def cooldownDurationMs (durationMinutes : Int) : Int :=
  -- total_duration_ms = minutes*60000; min_full_show_ms = 30000+120000+60000
  if durationMinutes * 60000 < 30000 + 120000 + 60000 then
    ⌊(60000 : ℚ) * max (1 / 2)
        (((durationMinutes * 60000 : Int) : ℚ) / ((30000 + 120000 + 60000 : Int) : ℚ))⌋
  else 60000

/-- The speed trajectory of n due ramp ticks from a state: the list of the
n+1 successive states. -/
def rampTrace (s : SysState) (n : Nat) : List SysState :=
  List.scanl (fun a _ => rampStep a) s (List.range n)

/-- State after n due ramp ticks. -/
def rampIter (s : SysState) (n : Nat) : SysState :=
  List.foldl (fun a _ => rampStep a) s (List.range n)

/-- The running state the firmware reaches on boot: `setup()` ends with
`triggerStart()` (main.cpp line 1037) and the 120 due ramp ticks bring the
motor from 0 to the 600 speed setting, ending Idle, running, clockwise. -/
def steadyRunState : SysState := rampIter (triggerStart bootState) 120

/-- The mid-ramp state used against C1: from the boot steady state, the BLE
command motor_speed:603 (any value not a multiple of RAMP_STEP=5 away from
the current speed) starts a short up-ramp. -/
def c1oddTargetState : SysState := processCommand "motor_speed:603" steadyRunState
def c5fastRampState : SysState :=
  processCommand "motor_speed:1000" (processCommand "motor_ramp:100" bootState)

/-- C5 counterexample: after motor_ramp:100 and motor_speed:1000 from the boot state (both reachable BLE commands), updateRampTiming leaves a per-step ramp delay of 0 ms, so the per-step delay is not always at least 1 tick as the claim states. -/
theorem c5_min_delay_counterexample :
    c5fastRampState.motorState = .rampingUp ∧
    c5fastRampState.targetLogicalSpeed - c5fastRampState.currentLogicalSpeed = 1000 ∧
    c5fastRampState.rampStepDelay = 0 ∧
    ¬(1 ≤ c5fastRampState.rampStepDelay) := by
  decide

/-- C5 amended: for speeds in the logical range, updateRampTiming sets the per-step delay to the configured total ramp duration divided (integer division) by the step count |target-current|/RAMP_STEP; the delay is at least 1 tick whenever the configured duration is at least 200 ms (the largest possible step count), but not unconditionally. -/
theorem c5_ramp_timing_amended (st : SysState)
    (hc0 : 0 ≤ st.currentLogicalSpeed) (hc1 : st.currentLogicalSpeed ≤ 1000)
    (ht0 : 0 ≤ st.targetLogicalSpeed) (ht1 : st.targetLogicalSpeed ≤ 1000) :
    (5 ≤ (st.targetLogicalSpeed - st.currentLogicalSpeed).natAbs →
      (updateRampTiming st).rampStepDelay
        = st.currentRampDuration / ((st.targetLogicalSpeed - st.currentLogicalSpeed).natAbs / 5)) ∧
    (200 ≤ st.currentRampDuration → 1 ≤ (updateRampTiming st).rampStepDelay) := by
  have hd : (st.targetLogicalSpeed - st.currentLogicalSpeed).natAbs ≤ 1000 := by omega
  simp only [updateRampTiming, RAMP_STEP, show Int.natAbs 5 = 5 from rfl]
  constructor
  · intro h5
    split
    · split
      · rfl
      · omega
    · omega
  · intro hdur
    split
    · split
      · rename_i hpos hsteps
        rw [Nat.one_le_div_iff hsteps]
        omega
      · omega
    · split
      · rename_i hz hone
        omega
      · omega

/-- C5 witness: the amended theorem evaluated at the boot state (duration 4000 ms). -/
theorem c5_ramp_timing_amended_witness :
    ((0 : Int) ≤ bootState.currentLogicalSpeed ∧ 200 ≤ bootState.currentRampDuration) ∧
      1 ≤ (updateRampTiming bootState).rampStepDelay :=
  ⟨⟨by decide, by decide⟩,
    (c5_ramp_timing_amended bootState (by decide) (by decide) (by decide) (by decide)).2 (by decide)⟩

/-- C7: with the manual override active and a positive new speed s, applySpeedSyncLookup sets the step interval to the manual base interval times (reference speed / s); in particular resyncing at half the reference speed doubles the interval (floats modelled as exact rationals). -/
theorem c7_manual_resync_scaling (st : SysState) (s : Int)
    (hm : st.isManualLedInterval = true) (hs : 0 < s) :
    (applySpeedSyncLookup s st).ledIntervalMs
        = st.manualLedIntervalMs * ((st.manualSpeedReference : ℚ) / (s : ℚ)) ∧
    (st.manualSpeedReference = 2 * s →
      (applySpeedSyncLookup s st).ledIntervalMs = 2 * st.manualLedIntervalMs) := by
  have hcond : s > 0 ∧ st.isManualLedInterval := ⟨hs, by simp [hm]⟩
  constructor
  · simp only [applySpeedSyncLookup, if_pos hcond]
  · intro h2
    simp only [applySpeedSyncLookup, if_pos hcond, h2]
    have hsne : (s : ℚ) ≠ 0 := Int.cast_ne_zero.mpr (by omega)
    push_cast
    field_simp
    ring

def c7manualState : SysState :=
  { bootState with isManualLedInterval := true, manualLedIntervalMs := 10,
                   manualSpeedReference := 600 }

/-- C7 witness: the theorem evaluated at a manual-override state with base interval 10 and reference speed 600, resynced at speed 300. -/
theorem c7_manual_resync_scaling_witness :
    (c7manualState.isManualLedInterval = true ∧ (0 : Int) < 300 ∧
      c7manualState.manualSpeedReference = 2 * 300) ∧
    (applySpeedSyncLookup 300 c7manualState).ledIntervalMs
      = 2 * c7manualState.manualLedIntervalMs :=
  ⟨⟨rfl, by norm_num, by decide⟩,
    (c7_manual_resync_scaling c7manualState 300 rfl (by norm_num)).2 (by decide)⟩

/-- C6: every pixel index written by one due comet frame (fade pass, background pass and the gap-guarded comet heads) is at least 0 and strictly below the physical LED count of 198. -/
theorem c6_comet_writes_within_physical (st : SysState) (i : Int)
    (h : i ∈ cometFrameWrites st) : 0 ≤ i ∧ i < NUM_LEDS := by
  unfold cometFrameWrites at h
  rcases List.mem_append.mp h with h1 | h2
  · rcases List.mem_append.mp h1 with h3 | h3 <;>
    · obtain ⟨k, hk, rfl⟩ := List.mem_map.mp h3
      have := List.mem_range.mp hk
      simp only [NUM_LEDS, Int.toNat_ofNat, Int.ofNat_eq_natCast] at this ⊢
      omega
  · unfold cometHeadWrites at h2
    obtain ⟨j, hj, hsome⟩ := List.mem_filterMap.mp h2
    split at hsome
    · rename_i hlt
      obtain rfl := Option.some_injective _ hsome
      refine ⟨Int.emod_nonneg _ (by norm_num [LOGICAL_NUM_LEDS, NUM_LEDS, VIRTUAL_GAP]), hlt⟩
    · exact absurd hsome (by simp)

/-- C6 witness: the theorem evaluated at the boot state and written index 0. -/
theorem c6_comet_writes_within_physical_witness :
    ((0 : Int) ∈ cometFrameWrites bootState) ∧ (0 ≤ (0 : Int) ∧ (0 : Int) < NUM_LEDS) :=
  ⟨by decide, c6_comet_writes_within_physical bootState 0 (by decide)⟩

def c3fireState : SysState := processCommand "led_effect:fire" bootState

/-- C3 counterexample: processing led_tails:0,50,5 (50*5=250 > 0.8*223) from a state whose active effect is Fire leaves the tail parameters unchanged but switches the active effect to Comet, so the processing of the rejected command does change observable state. -/
theorem c3_rejected_tails_counterexample :
    c3fireState.activeLedEffect = .fire ∧
    (processCommand "led_tails:0,50,5" c3fireState).activeLedEffect = .comet ∧
    (processCommand "led_tails:0,50,5" c3fireState).cometHue = c3fireState.cometHue ∧
    (processCommand "led_tails:0,50,5" c3fireState).cometTailLength = c3fireState.cometTailLength ∧
    (processCommand "led_tails:0,50,5" c3fireState).cometCount = c3fireState.cometCount ∧
    processCommand "led_tails:0,50,5" c3fireState ≠ c3fireState := by
  refine ⟨by decide, by decide, by decide, by decide, by decide, fun hEq => ?_⟩
  have h2 := congrArg SysState.activeLedEffect hEq
  revert h2
  decide

/-- C3 amended: for every state, processing the rejected led_tails:0,50,5 command changes exactly one field: the active effect is switched to Comet (done before the safety check at main.cpp line 573); the tail hue, length and count and all other fields are retained. -/
theorem c3_rejected_tails_amended (st : SysState) :
    processCommand "led_tails:0,50,5" st = { st with activeLedEffect := .comet } := rfl

/-- C9 counterexample: processing system_reset leaves the rainbow mode active (the handler ends with processCommand("led_rainbow"), main.cpp line 826), while the setup default of isRainbowActive is false, so not all effect fields end at their defaults. -/
theorem c9_reset_counterexample :
    (processCommand "system_reset" bootState).isRainbowActive = true ∧
    bootState.isRainbowActive = false := by
  decide

/-- C9 amended: for every state, processing system_reset leaves the global master brightness unchanged and restores the speed setting, display brightness, background, comet parameters, manual-sync flag, active effect, ramp duration, LED direction, auto mode and dynamic-effect flags to their setup defaults, except that rainbow hue cycling is then re-enabled (isRainbowActive ends true). -/
theorem c9_reset_amended (st : SysState) :
    (processCommand "system_reset" st).globalMasterBrightness = st.globalMasterBrightness ∧
    (processCommand "system_reset" st).speedSetting = LOGICAL_INITIAL_SPEED ∧
    (processCommand "system_reset" st).lastDisplayBrightnessPercent = 100 ∧
    (processCommand "system_reset" st).bgHue = 160 ∧
    (processCommand "system_reset" st).bgBrightness = 76 ∧
    (processCommand "system_reset" st).cometHue = 0 ∧
    (processCommand "system_reset" st).cometTailLength = 10 ∧
    (processCommand "system_reset" st).cometCount = 3 ∧
    (processCommand "system_reset" st).isManualLedInterval = false ∧
    (processCommand "system_reset" st).activeLedEffect = .comet ∧
    (processCommand "system_reset" st).currentRampDuration = DEFAULT_RAMP_DURATION_MS ∧
    (processCommand "system_reset" st).isLedReversed = false ∧
    (processCommand "system_reset" st).autoModeType = .amNone ∧
    (processCommand "system_reset" st).isHueSineActive = false ∧
    (processCommand "system_reset" st).isPulseSineActive = false ∧
    (processCommand "system_reset" st).isRainbowActive = true := by
  have hp : parseCommand "system_reset" = Cmd.systemReset := by decide
  simp only [processCommand, hp, applyCommand, ledRainbowEffect, triggerSetSpeed,
    triggerStop, setFinalBrightnessFromDisplayPercent, applyBrightness,
    updateRampTiming, applySpeedSyncLookup, constrain, LOGICAL_INITIAL_SPEED,
    LOGICAL_MAX_SPEED, DEFAULT_RAMP_DURATION_MS,
    apply_ite SysState.globalMasterBrightness, apply_ite SysState.speedSetting,
    apply_ite SysState.lastDisplayBrightnessPercent, apply_ite SysState.bgHue,
    apply_ite SysState.bgBrightness, apply_ite SysState.cometHue,
    apply_ite SysState.cometTailLength, apply_ite SysState.cometCount,
    apply_ite SysState.isManualLedInterval, apply_ite SysState.activeLedEffect,
    apply_ite SysState.currentRampDuration, apply_ite SysState.isLedReversed,
    apply_ite SysState.autoModeType, apply_ite SysState.isHueSineActive,
    apply_ite SysState.isPulseSineActive, apply_ite SysState.isRainbowActive,
    apply_ite SysState.isMotorRunning, apply_ite SysState.targetLogicalSpeed,
    apply_ite SysState.currentLogicalSpeed, ite_self]
  norm_num

/-- The set of commands the claim says may be processed during a running
script, following the claim wording: led_global_brightness, system_reset,
system_off, or a motor_speed command (the command reference defines the
motor_speed command as motor_speed:XXX) during auto-steady-rotate.
This definition follows the claim's words, to be compared with the gate
`bleDispatch` embedded from the source. -/
def claimC10Allowed (amt : AutoModeType) (cmdStr : String) : Bool :=
  strStartsWith cmdStr "led_global_brightness" || cmdStr = "system_reset" ||
  cmdStr = "system_off" ||
  (amt = .amSteadyRotate && strStartsWith cmdStr "motor_speed:")

def c10scriptState : SysState :=
  { bootState with isScriptRunning := true, autoModeType := .amSteadyRotate }

/-- C10 counterexample: with a script running in auto-steady-rotate mode, the BLE command motor_speed_up (not a motor_speed:N command) is processed by the gate because of prefix matching, and it changes engine state by raising the speed setting from 600 to 650. -/
theorem c10_gate_counterexample :
    c10scriptState.isScriptRunning = true ∧
    (bleDispatch c10scriptState "motor_speed_up").1 = true ∧
    claimC10Allowed c10scriptState.autoModeType "motor_speed_up" = false ∧
    c10scriptState.speedSetting = 600 ∧
    (bleDispatch c10scriptState "motor_speed_up").2.speedSetting = 650 := by
  decide

/-- C10 amended: while a script is running, a BLE command is processed exactly when it starts with led_global_brightness, equals system_reset or system_off, or the auto-steady-rotate mode is active and it starts with the prefix motor_speed (which also admits motor_speed_up and motor_speed_down); an ignored command leaves the state unchanged. -/
theorem c10_gate_amended (st : SysState) (cmdStr : String)
    (hrun : st.isScriptRunning = true) :
    ((bleDispatch st cmdStr).1 = true ↔
      (strStartsWith cmdStr "led_global_brightness" = true ∨
       cmdStr = "system_reset" ∨ cmdStr = "system_off" ∨
       (st.autoModeType = .amSteadyRotate ∧
        strStartsWith cmdStr "motor_speed" = true))) ∧
    ((bleDispatch st cmdStr).1 = false → (bleDispatch st cmdStr).2 = st) := by
  have h3 : ¬(st.isScriptRunning = false) := by simp [hrun]
  constructor
  · by_cases h1 : strStartsWith cmdStr "led_global_brightness" = true
    · unfold bleDispatch
      rw [if_pos h1]
      simp [h1]
    · unfold bleDispatch
      rw [if_neg h1]
      by_cases h2 : cmdStr = "system_reset" ∨ cmdStr = "system_off"
      · rw [if_pos h2]
        exact ⟨fun _ => by tauto, fun _ => rfl⟩
      · rw [if_neg h2, if_neg h3]
        by_cases h4 : st.autoModeType = .amSteadyRotate ∧ strStartsWith cmdStr "motor_speed" = true
        · rw [if_pos h4]
          exact ⟨fun _ => Or.inr (Or.inr (Or.inr h4)), fun _ => rfl⟩
        · rw [if_neg h4]
          constructor
          · intro hf
            simp at hf
          · intro hr
            rcases hr with hA | hB | hC | hD
            · exact absurd hA h1
            · exact absurd (Or.inl hB) h2
            · exact absurd (Or.inr hC) h2
            · exact absurd hD h4
  · by_cases h1 : strStartsWith cmdStr "led_global_brightness" = true
    · unfold bleDispatch
      rw [if_pos h1]
      intro hf
      simp at hf
    · unfold bleDispatch
      rw [if_neg h1]
      by_cases h2 : cmdStr = "system_reset" ∨ cmdStr = "system_off"
      · rw [if_pos h2]
        intro hf
        simp at hf
      · rw [if_neg h2, if_neg h3]
        by_cases h4 : st.autoModeType = .amSteadyRotate ∧ strStartsWith cmdStr "motor_speed" = true
        · rw [if_pos h4]
          intro hf
          simp at hf
        · rw [if_neg h4]
          intro _
          rfl

/-- C10 witness: the amended theorem applied to a running steady-rotate script state and the command led_reverse. -/
theorem c10_gate_amended_witness :
    c10scriptState.isScriptRunning = true ∧
    ((bleDispatch c10scriptState "led_reverse").1 = false →
      (bleDispatch c10scriptState "led_reverse").2 = c10scriptState) :=
  ⟨rfl, (c10_gate_amended c10scriptState "led_reverse" rfl).2⟩

/-- The state after the two commands of the C8 scenario. -/
def c8after (st : SysState) : SysState :=
  processCommand "led_display_brightness:80" (processCommand "led_global_brightness:50" st)

/-- C8: from any state without an active pulse effect, led_global_brightness:50 then led_display_brightness:80 set the FastLED output brightness to scale8(127,204) = 101, which is 0.4 of full scale up to 8-bit quantization (within 1 percent of 255*2/5); afterwards any led_global_brightness:p alone recomputes the output from the retained display percentage 80 without a new display command. -/
theorem c8_brightness_composition (st : SysState)
    (hp : st.isPulseSineActive = false) :
    (c8after st).globalMasterBrightness = 127 ∧
    (c8after st).lastDisplayBrightnessPercent = 80 ∧
    (c8after st).fastledBrightness = scale8 127 204 ∧
    (c8after st).fastledBrightness = 101 ∧
    (255 * 4 - 10 ≤ 10 * (c8after st).fastledBrightness ∧
      10 * (c8after st).fastledBrightness ≤ 255 * 4) ∧
    (∀ p : Int,
      (applyCommand (.ledGlobalBrightness p) (c8after st)).lastDisplayBrightnessPercent = 80 ∧
      (applyCommand (.ledGlobalBrightness p) (c8after st)).fastledBrightness
        = scale8 ((constrain p 0 100 * 255) / 100) 204) := by
  have hpar : parseCommand "led_global_brightness:50" = Cmd.ledGlobalBrightness 50 := by decide
  have hpar2 : parseCommand "led_display_brightness:80" = Cmd.ledDisplayBrightness 80 := by decide
  have hnp : ¬({ st with globalMasterBrightness := (constrain 50 0 100 * 255) / 100 } : SysState).isPulseSineActive := by
    simp [hp]
  have h1 : processCommand "led_global_brightness:50" st
      = setFinalBrightnessFromDisplayPercent st.lastDisplayBrightnessPercent
          { st with globalMasterBrightness := 127 } := by
    simp only [processCommand, hpar, applyCommand, if_pos hnp]
    norm_num [constrain]
  have h2 : c8after st
      = setFinalBrightnessFromDisplayPercent 80
          { (setFinalBrightnessFromDisplayPercent st.lastDisplayBrightnessPercent
              { st with globalMasterBrightness := 127 }) with isPulseSineActive := false } := by
    unfold c8after
    rw [h1]
    simp only [processCommand, hpar2, applyCommand]
    norm_num [constrain]
  rw [h2]
  simp only [setFinalBrightnessFromDisplayPercent, applyBrightness, applyCommand, constrain]
  norm_num [scale8]

/-- C8 witness: the theorem evaluated at the boot state. -/
theorem c8_brightness_composition_witness :
    bootState.isPulseSineActive = false ∧ (c8after bootState).fastledBrightness = 101 :=
  ⟨rfl, (c8_brightness_composition bootState rfl).2.2.2.1⟩
/-- C1 counterexample: from the reachable boot steady state (Idle at 600), the BLE command motor_speed:603 starts an up-ramp whose single tick moves the current speed by 3, not by the fixed step RAMP_STEP = 5, because the step is clamped at the target. -/
theorem c1_exact_step_counterexample :
    steadyRunState.motorState = .idle ∧
    steadyRunState.currentLogicalSpeed = 600 ∧
    c1oddTargetState.motorState = .rampingUp ∧
    c1oddTargetState.currentLogicalSpeed = 600 ∧
    c1oddTargetState.targetLogicalSpeed = 603 ∧
    (rampStep c1oddTargetState).currentLogicalSpeed -
      c1oddTargetState.currentLogicalSpeed = 3 ∧
    ¬((3 : Int) = RAMP_STEP) := by
  decide

/-- C1 amended: every due ramp tick moves the current speed toward the target by exactly min(RAMP_STEP, |target-current|) (so it never overshoots), and in the concrete scenario current=0, target=0, setSpeed(600), the speed rises monotonically 0,5,...,600 in 120 ticks and ends Idle with the running flag true. -/
theorem c1_clamped_step_amended :
    (∀ st : SysState, st.motorState = .rampingUp →
        st.currentLogicalSpeed ≤ st.targetLogicalSpeed →
        (rampStep st).currentLogicalSpeed
          = st.currentLogicalSpeed
            + min RAMP_STEP (st.targetLogicalSpeed - st.currentLogicalSpeed)) ∧
    (∀ st : SysState, st.motorState = .rampingDown →
        st.targetLogicalSpeed ≤ st.currentLogicalSpeed →
        (rampStep st).currentLogicalSpeed
          = st.currentLogicalSpeed
            - min RAMP_STEP (st.currentLogicalSpeed - st.targetLogicalSpeed)) ∧
    (((rampTrace (triggerSetSpeed 600 bootState) 120).map fun s => s.currentLogicalSpeed)
        = (List.range 121).map (fun k => 5 * (k : Int)) ∧
     (rampIter (triggerSetSpeed 600 bootState) 120).motorState = .idle ∧
     (rampIter (triggerSetSpeed 600 bootState) 120).isMotorRunning = true ∧
     (rampIter (triggerSetSpeed 600 bootState) 120).currentLogicalSpeed = 600) := by
  refine ⟨fun st h1 h2 => ?_, fun st h1 h2 => ?_, by decide⟩
  · simp [rampStep, h1, applySpeedSyncLookup, updateRampTiming,
      apply_ite SysState.currentLogicalSpeed, RAMP_STEP]
    omega
  · simp [rampStep, h1, applySpeedSyncLookup, updateRampTiming,
      apply_ite SysState.currentLogicalSpeed, RAMP_STEP]
    omega

/-- C1 witness: the up-ramp clause of the amended theorem evaluated at the reachable mid-ramp state with current 600 and target 603. -/
theorem c1_clamped_step_amended_witness :
    (c1oddTargetState.motorState = .rampingUp ∧
     c1oddTargetState.currentLogicalSpeed ≤ c1oddTargetState.targetLogicalSpeed) ∧
    (rampStep c1oddTargetState).currentLogicalSpeed
      = c1oddTargetState.currentLogicalSpeed +
        min RAMP_STEP (c1oddTargetState.targetLogicalSpeed - c1oddTargetState.currentLogicalSpeed) :=
  ⟨⟨by decide, by decide⟩,
    c1_clamped_step_amended.1 c1oddTargetState (by decide) (by decide)⟩

/-- C2: from the boot steady state running at 600 clockwise, motor_reverse ramps down by 5 per tick for 80 ticks to the intermediate speed 200, flips the direction exactly once, ramps back up by 5 per tick for 80 ticks to the original setting 600, ends Idle counter-clockwise, and the running flag is true at every one of the 161 states of the maneuver. -/
theorem c2_reverse_maneuver :
    steadyRunState.isMotorRunning = true ∧
    steadyRunState.isDirectionClockwise = true ∧
    steadyRunState.currentLogicalSpeed = 600 ∧
    steadyRunState.speedSetting = 600 ∧
    (let tr := rampTrace (processCommand "motor_reverse" steadyRunState) 160
     ((tr.zip tr.tail).map fun p =>
        p.2.currentLogicalSpeed - p.1.currentLogicalSpeed)
        = List.replicate 80 (-5) ++ List.replicate 80 5 ∧
     tr.all (fun s => s.isMotorRunning) = true ∧
     ((tr.zip tr.tail).countP fun p =>
        p.1.isDirectionClockwise != p.2.isDirectionClockwise) = 1 ∧
     (tr.getLast?.map fun s => s.currentLogicalSpeed) = some 600 ∧
     (tr.getLast?.map fun s => s.motorState) = some .idle ∧
     (tr.getLast?.map fun s => s.isDirectionClockwise) = some false) := by
  decide
/-- C4: for every requested duration of at least 1 minute and every pseudo-random stream, the COOL_DOWN block of the auto-generated script runs (its duration exceeds 1000 ms) and emits a motor_speed command whose value lies in 200..300, which is nonzero and below the stall floor of 500 that the generator's own guidance comment mandates. -/
theorem c4_cooldown_below_stall_floor (stream : Nat → Nat) (m : Int)
    (_hm : 1 ≤ m) :
    1000 < cooldownDurationMs m ∧
    ∃ v : Int, 0 < v ∧ v < 500 ∧
      ("motor_speed:" ++ toString v) ∈ cooldownCommands stream (cooldownDurationMs m) := by
  constructor
  · unfold cooldownDurationMs
    split
    · have hsf : (1 / 2 : ℚ) ≤ max (1 / 2)
          (((m * 60000 : Int) : ℚ) / ((30000 + 120000 + 60000 : Int) : ℚ)) :=
        le_max_left _ _
      have h30 : (30000 : Int) ≤ ⌊(60000 : ℚ) * max (1 / 2)
          (((m * 60000 : Int) : ℚ) / ((30000 + 120000 + 60000 : Int) : ℚ))⌋ := by
        rw [Int.le_floor]
        calc ((30000 : Int) : ℚ) = 60000 * (1 / 2) := by norm_num
        _ ≤ _ := by
          apply mul_le_mul_of_nonneg_left hsf
          norm_num
      omega
    · norm_num
  · unfold cooldownCommands
    by_cases h40 : stream 1 % 100 < 40
    · refine ⟨200 + ((stream 2) % 101 : Nat), by positivity, ?_, ?_⟩
      · have := Nat.mod_lt (stream 2) (y := 101) (by norm_num)
        omega
      · rw [if_pos h40]
        simp [arand, List.mem_append]
    · by_cases h70 : stream 1 % 100 < 70
      · refine ⟨200 + ((stream 2) % 101 : Nat), by positivity, ?_, ?_⟩
        · have := Nat.mod_lt (stream 2) (y := 101) (by norm_num)
          omega
        · rw [if_neg h40, if_pos h70]
          simp [arand, List.mem_append]
      · refine ⟨200 + ((stream 7) % 101 : Nat), by positivity, ?_, ?_⟩
        · have := Nat.mod_lt (stream 7) (y := 101) (by norm_num)
          omega
        · rw [if_neg h40, if_neg h70]
          simp [arand, List.mem_append]

/-- C4 witness: the theorem evaluated at duration 5 minutes and the all-zero random stream. -/
theorem c4_cooldown_below_stall_floor_witness :
    (1 : Int) ≤ 5 ∧
    (1000 < cooldownDurationMs 5 ∧
      ∃ v : Int, 0 < v ∧ v < 500 ∧
        ("motor_speed:" ++ toString v) ∈ cooldownCommands (fun _ => 0) (cooldownDurationMs 5)) :=
  ⟨by norm_num, c4_cooldown_below_stall_floor (fun _ => 0) 5 (by norm_num)⟩
